import Mathlib

/-!
Shallow embedding of the note extraction / scoring core of `xhs-alpha-picks`
(files `src/src/xhs_alpha_picks/note_processor.py`, `src/xhs_alpha_picks/note_parser.py`,
and the payload/merge loop of `src/src/xhs_alpha_picks/llm_agent.py`), together with
theorems settling the frozen claims about them.

Modelling conventions:
* JSON-like Python values (the deserialized payloads) are the mutual inductive
  family `JValue`/`JArr`/`JObj`; a Python `dict` is an insertion-ordered
  sequence of bindings with unique keys (`JObj`, abbreviated `JDict`).
* Python machine floats appear only as the quality score (a sum of a subset of
  {0.3, 0.4, 0.2, 0.1}) and the `1e12` timestamp threshold; the score is modelled
  exactly in tenths (a `Nat`), which agrees with the float computation on the
  `>= 0.7` test at every reachable sum, and the threshold as the integer `10^12`.
* `str.lower`/`str.strip`/`\d`/`\s` are modelled on ASCII (the inputs at issue are
  ASCII plus CJK characters, which are uncased and are matched by explicit classes).
* `datetime` values are a civil-calendar structure; `fromtimestamp` is modelled at
  UTC (the code uses the local zone; no claim depends on the zone offset).
-/

namespace XhsAlphaPicks

mutual
/-- A JSON-like Python value (`None`/`bool`/`int`/`str`/`list`/`dict`).
Numbers are modelled by `Int`; no claim involves a non-integral float payload. -/
inductive JValue where
  | null
  | bool (b : Bool)
  | num (n : Int)
  | str (s : String)
  | arr (items : JArr)
  | obj (fields : JObj)

/-- A Python `list` of JSON-like values. -/
inductive JArr where
  | nil
  | cons (head : JValue) (tail : JArr)

/-- A Python `dict` with string keys: an insertion-ordered binding sequence. -/
inductive JObj where
  | nil
  | cons (key : String) (value : JValue) (tail : JObj)
end

/-- A Python `dict` (see `JObj`). -/
abbrev JDict := JObj

/-- Build a `JObj` from a list of bindings (notation convenience). -/
def jobj : List (String × JValue) → JObj
  | [] => .nil
  | (k, v) :: rest => .cons k v (jobj rest)

/-- Build a `JArr` from a list (notation convenience). -/
def jarr : List JValue → JArr
  | [] => .nil
  | v :: rest => .cons v (jarr rest)

/-- The elements of a `JArr` as a `List`. -/
def JArr.toList : JArr → List JValue
  | .nil => []
  | .cons v rest => v :: rest.toList

/-- The keys of a dict, in insertion order. -/
def JObj.keys : JObj → List String
  | .nil => []
  | .cons k _ rest => k :: rest.keys

/-- `d[k]` lookup: first binding wins (keys of dicts built by the code are unique). -/
def dget (d : JDict) (k : String) : Option JValue :=
  match d with
  | .nil => none
  | .cons k' v rest => if k' = k then some v else dget rest k

/-- `d.get(k)` — Python returns `None` when the key is absent. -/
def dgetD (d : JDict) (k : String) : JValue :=
  (dget d k).getD .null

/-- `d.get(k, default)`. -/
def dgetDef (d : JDict) (k : String) (dflt : JValue) : JValue :=
  (dget d k).getD dflt

/-- `d[k] = v`: replace in place if the key exists, else append (insertion order). -/
def dset (d : JDict) (k : String) (v : JValue) : JDict :=
  match d with
  | .nil => .cons k v .nil
  | .cons k' v' rest =>
      if k' = k then .cons k v rest else .cons k' v' (dset rest k v)

/-- `old.update(new)`: every binding of `new` is written into `old`, in order. -/
def dupdate (old : JDict) : JDict → JDict
  | .nil => old
  | .cons k v rest => dupdate (dset old k v) rest

/-- Python truthiness of a JSON-like value
(`None`, `False`, `0`, `""`, `[]`, `{}` are falsy). -/
def pyTruthy : JValue → Bool
  | .null => false
  | .bool b => b
  | .num n => n != 0
  | .str s => s ≠ ""
  | .arr .nil => false
  | .arr (.cons _ _) => true
  | .obj .nil => false
  | .obj (.cons _ _ _) => true

/-- Python `a or b` on values: `b` unless `a` is truthy. -/
def pyOr (a b : JValue) : JValue :=
  if pyTruthy a then a else b

/-- Python `x or y` where `x : Optional[T]` is an object that is always truthy
when present (e.g. a `datetime`). -/
def optOr {α : Type} (a b : Option α) : Option α :=
  match a with
  | some x => some x
  | none => b

/-- `d.get(k, {})` read as a dict: the code only ever reads such a value with
`.get`, which would raise on a present non-dict; the claims never exercise that
path, so a non-dict collapses to the empty dict here. -/
def asObj : JValue → JDict
  | .obj fields => fields
  | _ => .nil

mutual
/-- Python structural `==` on JSON-like values (used for the `note_id`
comparison in the merge loop; `int`/`float` conflation never arises there). -/
def jvBeq : JValue → JValue → Bool
  | .null, .null => true
  | .bool a, .bool b => a == b
  | .num a, .num b => a == b
  | .str a, .str b => a == b
  | .arr a, .arr b => jvBeqArr a b
  | .obj a, .obj b => jvBeqObj a b
  | _, _ => false

def jvBeqArr : JArr → JArr → Bool
  | .nil, .nil => true
  | .cons x xs, .cons y ys => jvBeq x y && jvBeqArr xs ys
  | _, _ => false

def jvBeqObj : JObj → JObj → Bool
  | .nil, .nil => true
  | .cons k x xs, .cons l y ys => k == l && jvBeq x y && jvBeqObj xs ys
  | _, _ => false
end

/-- `repr` of a value as it appears nested inside a container (only scalars are
ever rendered by the code paths the claims touch). -/
def jvRepr : JValue → String
  | .null => "None"
  | .bool b => if b then "True" else "False"
  | .num n => toString n
  | .str s => "'" ++ s ++ "'"
  | .arr _ => "[...]"
  | .obj _ => "{...}"

/-- Python `str(v)`. -/
def pyStr : JValue → String
  | .str s => s
  | v => jvRepr v

/-! ## String helpers (Python semantics, ASCII fragment) -/

/-- `str.lower()` (ASCII; the CJK characters in the inputs are uncased). -/
def pyLower (s : String) : String :=
  (s.data.map Char.toLower).asString

/-- The ASCII whitespace characters recognised by `str.strip` and `\s`. -/
def isSpaceChar (c : Char) : Bool :=
  c = ' ' || c = '\t' || c = '\n' || c = '\x0d' || c = '\x0b' || c = '\x0c'

/-- `str.strip()`. -/
def pyStrip (s : String) : String :=
  ((s.data.dropWhile isSpaceChar).reverse.dropWhile isSpaceChar).reverse.asString

/-- `str.isdigit()` for ASCII text: non-empty and all characters are digits. -/
def pyIsDigit (s : String) : Bool :=
  !s.isEmpty && s.data.all Char.isDigit

/-- `int(s)` on a digit string. -/
def digitsToNat (s : String) : Nat :=
  s.data.foldl (fun acc c => acc * 10 + (c.toNat - '0'.toNat)) 0

/-- Does `pat` occur as a prefix of `s`? -/
def startsWithL : List Char → List Char → Bool
  | _, [] => true
  | [], _ :: _ => false
  | c :: cs, p :: ps => c == p && startsWithL cs ps

/-- Python `needle in haystack` substring containment. -/
def hasSubstr (haystack needle : String) : Bool :=
  go haystack.data
where
  go : List Char → Bool
    | [] => startsWithL [] needle.data
    | s@(_ :: rest) => startsWithL s needle.data || go rest

/-- `s[:n]` (character slice, as in Python). -/
def pyTake (s : String) (n : Nat) : String :=
  (s.data.take n).asString

/-- `s.replace(a, b)` for single characters (the code only replaces `/` by `-`). -/
def pyReplaceChar (s : String) (a b : Char) : String :=
  (s.data.map (fun c => if c = a then b else c)).asString

/-! ## Regular expressions

Every pattern used by the code is a concatenation of bounded repetitions of
character classes in which each pair of adjacent classes is disjoint (e.g. `\d+`
followed by `[\.\)]`, `[A-Z]{2,5}` followed by `[\s,]+`).  For such patterns a
greedy matcher without backtracking finds exactly the matches Python's engine
finds: shrinking a greedy repetition re-exposes characters of the same class,
which by disjointness can never satisfy the following class.  `findall` emits
non-overlapping matches left to right, resuming after each match, exactly like
`re.findall`. -/

/-- One regex token: a repeated character class.  `hi = none` encodes `+`/`*`
(no upper bound); `cap` marks a capturing group over the token. -/
structure RTok where
  pred : Char → Bool
  lo : Nat
  hi : Option Nat
  cap : Bool := false

/-- Match a token list at the head of `s`, greedily; returns
`(consumed chars, captured chars)` on success. -/
def matchHere : List RTok → List Char → Option (List Char × List Char)
  | [], _ => some ([], [])
  | t :: ts, s =>
      let run := (s.takeWhile t.pred).length
      let k := match t.hi with
        | some h => min h run
        | none => run
      if k < t.lo then none
      else
        match matchHere ts (s.drop k) with
        | none => none
        | some (rest, caps) =>
            some (s.take k ++ rest, (if t.cap then s.take k else []) ++ caps)

/-- All non-overlapping matches of `p` in `s`, left to right, as
`(whole match, captured part)` pairs.  The fuel argument (instantiated with the
string length) makes the recursion structural: every step advances at least one
character, so the fuel never runs out on the calls below. -/
def findallAux (p : List RTok) : Nat → List Char → List (List Char × List Char)
  | 0, _ => []
  | _, [] => []
  | fuel + 1, c :: rest =>
      match matchHere p (c :: rest) with
      | some (consumed, caps) =>
          (consumed, caps) :: findallAux p fuel (rest.drop (consumed.length - 1))
      | none => findallAux p fuel rest

/-- Does the token list contain a capturing group? -/
def hasCap (p : List RTok) : Bool :=
  p.any (·.cap)

/-- `re.findall(p, s)`: the whole match per hit, or the single group's text when
the pattern has a capturing group (as Python returns for one-group patterns). -/
def findall (p : List RTok) (s : String) : List String :=
  (findallAux p s.data.length s.data).map fun m =>
    if hasCap p then m.2.asString else m.1.asString

/-- `re.search(p, s)` viewed as a Boolean. -/
def hasMatch (p : List RTok) (s : String) : Bool :=
  !(findallAux p s.data.length s.data).isEmpty

/-- The text of the first match (`re.search(...).group(...)` for the patterns in
the code, whose single group spans the whole match). -/
def firstMatch (p : List RTok) (s : String) : Option String :=
  ((findallAux p s.data.length s.data).head?).map (·.1.asString)

/-! The character classes used by the repository's patterns. -/

def isUpperAZ (c : Char) : Bool := 'A' ≤ c && c ≤ 'Z'

def inStr (cls : String) (c : Char) : Bool := cls.data.contains c

/-- `\d+[\.\)]\s*[A-Z]{2,5}` — "1. AAPL", "2) TSLA". -/
def patNumberedTicker : List RTok :=
  [⟨Char.isDigit, 1, none, false⟩,
   ⟨inStr ".)", 1, some 1, false⟩,
   ⟨isSpaceChar, 0, none, false⟩,
   ⟨isUpperAZ, 2, some 5, false⟩]

/-- `[A-Z]{2,5}[\s,]+[A-Z]{2,5}` — "AAPL TSLA", "AAPL, TSLA". -/
def patTickerPair : List RTok :=
  [⟨isUpperAZ, 2, some 5, false⟩,
   ⟨fun c => isSpaceChar c || c = ',', 1, none, false⟩,
   ⟨isUpperAZ, 2, some 5, false⟩]

/-- `第[一二三四五六七八九十\d]+[只个股个]` — "第一只", "第3个". -/
def patChineseOrdinal : List RTok :=
  [⟨(· = '第'), 1, some 1, false⟩,
   ⟨fun c => inStr "一二三四五六七八九十" c || c.isDigit, 1, none, false⟩,
   ⟨inStr "只个股", 1, some 1, false⟩]

/-- `(\d+)[个只支项]` — "3个", "5只". -/
def patChineseCounter : List RTok :=
  [⟨Char.isDigit, 1, none, true⟩,
   ⟨inStr "个只支项", 1, some 1, false⟩]

/-- `[A-Z]{2,5}` — ticker-like uppercase tokens. -/
def patSymbol : List RTok :=
  [⟨isUpperAZ, 2, some 5, false⟩]

/-- The YYYY-MM-DD / YYYY/MM/DD pattern: four digits, dash-or-slash, two digits,
dash-or-slash, two digits. -/
def patDateYmd : List RTok :=
  [⟨Char.isDigit, 4, some 4, false⟩, ⟨inStr "-/", 1, some 1, false⟩,
   ⟨Char.isDigit, 2, some 2, false⟩, ⟨inStr "-/", 1, some 1, false⟩,
   ⟨Char.isDigit, 2, some 2, false⟩]

/-- The MM-DD-YYYY pattern: two digits, dash-or-slash, two digits, dash-or-slash,
four digits. -/
def patDateMdy : List RTok :=
  [⟨Char.isDigit, 2, some 2, false⟩, ⟨inStr "-/", 1, some 1, false⟩,
   ⟨Char.isDigit, 2, some 2, false⟩, ⟨inStr "-/", 1, some 1, false⟩,
   ⟨Char.isDigit, 4, some 4, false⟩]

/-- `(\d{4})\.(\d{2})\.(\d{2})`. -/
def patDateDots : List RTok :=
  [⟨Char.isDigit, 4, some 4, true⟩, ⟨(· = '.'), 1, some 1, false⟩,
   ⟨Char.isDigit, 2, some 2, true⟩, ⟨(· = '.'), 1, some 1, false⟩,
   ⟨Char.isDigit, 2, some 2, true⟩]

/-- `(\d{1,2})[月/](\d{1,2})[日]` — "1月1日". -/
def patDateCn : List RTok :=
  [⟨Char.isDigit, 1, some 2, true⟩, ⟨inStr "月/", 1, some 1, false⟩,
   ⟨Char.isDigit, 1, some 2, true⟩, ⟨(· = '日'), 1, some 1, false⟩]

/-! ## `datetime` model

A civil-calendar date-time at second granularity (the code zeroes microseconds
wherever it compares dates).  Conversions between a day count and a civil date
follow the standard Gregorian algorithms. -/

structure PyDateTime where
  year : Int
  month : Int
  day : Int
  hour : Int
  minute : Int
  second : Int
deriving DecidableEq, Repr

namespace PyDateTime

/-- An integer key that orders valid date-times exactly like Python's
field-lexicographic `datetime` comparison. -/
def key (d : PyDateTime) : Int :=
  ((((d.year * 100 + d.month) * 100 + d.day) * 100 + d.hour) * 100 + d.minute) * 100
    + d.second

def lt (a b : PyDateTime) : Bool := key a < key b

def le (a b : PyDateTime) : Bool := key a ≤ key b

/-- `d.replace(hour=0, minute=0, second=0, microsecond=0)`. -/
def truncateDay (d : PyDateTime) : PyDateTime :=
  { d with hour := 0, minute := 0, second := 0 }

end PyDateTime

/-- Days from the civil epoch 1970-01-01 (standard Gregorian day-count). -/
def daysFromCivil (y m d : Int) : Int :=
  let y' := y - (if m ≤ 2 then 1 else 0)
  let era := y'.fdiv 400
  let yoe := y' - era * 400
  let mp := (m + 9) % 12
  let doy := (153 * mp + 2) / 5 + d - 1
  let doe := yoe * 365 + yoe / 4 - yoe / 100 + doy
  era * 146097 + doe - 719468

/-- The civil date of a day count from 1970-01-01 (inverse of `daysFromCivil`). -/
def civilFromDays (z0 : Int) : Int × Int × Int :=
  let z := z0 + 719468
  let era := z.fdiv 146097
  let doe := z - era * 146097
  let yoe := (doe - doe / 1460 + doe / 36524 - doe / 146096) / 365
  let y := yoe + era * 400
  let doy := doe - (365 * yoe + yoe / 4 - yoe / 100)
  let mp := (5 * doy + 2) / 153
  let d := doy - (153 * mp + 2) / 5 + 1
  let m := mp + (if mp < 10 then 3 else -9)
  (y + (if m ≤ 2 then 1 else 0), m, d)

/-- `datetime.fromtimestamp(secs)` modelled at UTC; `none` when the year falls
outside `datetime`'s 1..9999 range (Python raises there, which the caller
catches). -/
def fromTimestampOpt (secs : Int) : Option PyDateTime :=
  let days := secs.fdiv 86400
  let sod := secs.emod 86400
  let c := civilFromDays days
  if 1 ≤ c.1 ∧ c.1 ≤ 9999 then
    some ⟨c.1, c.2.1, c.2.2, sod / 3600, (sod % 3600) / 60, sod % 60⟩
  else
    none

/-- `today - timedelta(days=n)` (calendar-correct day arithmetic). -/
def subDays (d : PyDateTime) (n : Int) : PyDateTime :=
  let c := civilFromDays (daysFromCivil d.year d.month d.day - n)
  ⟨c.1, c.2.1, c.2.2, d.hour, d.minute, d.second⟩

/-- Is `y` a Gregorian leap year? -/
def isLeap (y : Int) : Bool :=
  (y % 4 == 0 && y % 100 != 0) || y % 400 == 0

/-- Days in a month (for `datetime`'s day-of-month validation). -/
def daysInMonth (y m : Int) : Int :=
  if m = 2 then (if isLeap y then 29 else 28)
  else if m = 4 ∨ m = 6 ∨ m = 9 ∨ m = 11 then 30
  else 31

/-! ### `strptime`

`strptime` fragments: each `%`-directive consumes a bounded greedy digit run and
checks its range, exactly matching Python's `TimeRE` regexes (`%Y` four digits;
`%m`/`%d`/`%H`/`%M`/`%S` one or two digits within range).  In every format used
by the code the directives are separated by non-digit literals, so greedy
consumption agrees with Python's backtracking regex.  The whole string must be
consumed (`strptime` rejects trailing data), and the resulting day of month must
exist in the month (`datetime` construction validates it). -/

/-- Consume up to `hi` digits (at least one) and return their value and rest. -/
def grabDigits (hi : Nat) (s : List Char) : Option (Nat × List Char) :=
  let run := s.takeWhile Char.isDigit
  let k := min hi run.length
  if k = 0 then none
  else some (digitsToNat (s.take k).asString, s.drop k)

/-- Consume exactly four digits (`%Y`). -/
def grabYear (s : List Char) : Option (Nat × List Char) :=
  if (s.take 4).all Char.isDigit ∧ (s.take 4).length = 4 then
    some (digitsToNat (s.take 4).asString, s.drop 4)
  else none

/-- Consume a literal character. -/
def grabLit (c : Char) (s : List Char) : Option (List Char) :=
  match s with
  | c' :: rest => if c' = c then some rest else none
  | [] => none

/-- A two-field directive with a value range (`%m`, `%d`, `%H`, `%M`, `%S`). -/
def grabRanged (lo hi : Nat) (s : List Char) : Option (Nat × List Char) :=
  match grabDigits 2 s with
  | some (v, rest) => if lo ≤ v ∧ v ≤ hi then some (v, rest) else none
  | none => none

/-- Parse `"%Y-%m-%d"`-style date fragment; `sep1`/`sep2` are the literal
separators.  Returns the fields and the unconsumed rest. -/
def parseDatePart (sep1 sep2 : Char) (s : List Char) :
    Option ((Int × Int × Int) × List Char) := do
  let (y, s) ← grabYear s
  let s ← grabLit sep1 s
  let (m, s) ← grabRanged 1 12 s
  let s ← grabLit sep2 s
  let (d, s) ← grabRanged 1 31 s
  pure (((y : Int), (m : Int), (d : Int)), s)

/-- Parse `"%H:%M:%S"`. -/
def parseTimePart (s : List Char) : Option ((Int × Int × Int) × List Char) := do
  let (h, s) ← grabRanged 0 23 s
  let s ← grabLit ':' s
  let (mi, s) ← grabRanged 0 59 s
  let s ← grabLit ':' s
  let (sec, s) ← grabRanged 0 59 s
  pure (((h : Int), (mi : Int), (sec : Int)), s)

/-- `datetime(y, m, d, ...)` day-of-month validation. -/
def validDate (y m d : Int) : Bool :=
  1 ≤ y && y ≤ 9999 && d ≤ daysInMonth y m

/-- `datetime.strptime(s, fmt)` for the three formats the code tries, selected
by the separator between the date and time parts (`none` = date-only format). -/
def strptimeFmt (timeSep : Option Char) (s : String) : Option PyDateTime :=
  match timeSep with
  | none =>
      match parseDatePart '-' '-' s.data with
      | some ((y, m, d), []) =>
          if validDate y m d then some ⟨y, m, d, 0, 0, 0⟩ else none
      | _ => none
  | some sep =>
      match parseDatePart '-' '-' s.data with
      | some ((y, m, d), rest) =>
          match grabLit sep rest with
          | some rest' =>
              match parseTimePart rest' with
              | some ((h, mi, sec), []) =>
                  if validDate y m d then some ⟨y, m, d, h, mi, sec⟩ else none
              | _ => none
          | none => none
      | _ => none

/-- `datetime.strptime(s, "%Y-%m-%d")`. -/
def strptimeYmd (s : String) : Option PyDateTime := strptimeFmt none s

/-- `d.strftime("%Y-%m-%d %H:%M:%S")`. -/
def strftimeFull (d : PyDateTime) : String :=
  let pad2 := fun (n : Int) =>
    let s := toString n.toNat
    if s.length < 2 then "0" ++ s else s
  let pad4 := fun (n : Int) =>
    let s := toString n.toNat
    (String.mk (List.replicate (4 - s.length) '0')) ++ s
  pad4 d.year ++ "-" ++ pad2 d.month ++ "-" ++ pad2 d.day ++ " " ++
    pad2 d.hour ++ ":" ++ pad2 d.minute ++ ":" ++ pad2 d.second

/-- `max(dates)`: Python's `max` keeps the first maximal element; on the
day-truncated equal dates this is the element itself. -/
def maxDate : List PyDateTime → Option PyDateTime
  | [] => none
  | d :: ds => some (ds.foldl (fun acc x => if PyDateTime.lt acc x then x else acc) d)

/-- Python string `<` (code-point lexicographic), on character lists. -/
def strLtL : List Char → List Char → Bool
  | [], [] => false
  | [], _ :: _ => true
  | _ :: _, [] => false
  | a :: as, b :: bs =>
      if a.toNat < b.toNat then true
      else if b.toNat < a.toNat then false
      else strLtL as bs

/-- Python string `<=`. -/
def strLeB (a b : String) : Bool := !strLtL b.data a.data

/-! ## `note_processor.py` -/

/-- The dataclass `ProcessedNote` (`note_processor.py`).  `title`/`author`/`url`
hold whatever `raw_note.get(...)`-chains produce (possibly `None`), and the
quality score is in exact tenths of the Python float score. -/
structure ProcessedNote where
  note_id : String
  title : JValue := .null
  post_text : Option String := none
  ocr_text : Option String := none
  author : JValue := .null
  url : JValue := .null
  selection_date : Option String := none
  publish_time : Option String := none
  is_high_quality : Bool := false
  quality_score : Nat := 0
  quality_notes : List String := []
  raw : JDict := .nil

/-- `x or ""` for an optional string field. -/
def orEmpty : Option String → String
  | some s => s
  | none => ""

/-- The ordered candidate date keys of `extract_date_from_note`. -/
def date_keys : List String :=
  ["time", "timestamp", "publish_time", "create_time", "update_time",
   "date", "publish_date", "created_at", "updated_at"]

/-- The three formats tried on `value[:19]`, in order:
`"%Y-%m-%dT%H:%M:%S"`, `"%Y-%m-%d %H:%M:%S"`, `"%Y-%m-%d"`. -/
def tryFormats (value : String) : Option PyDateTime :=
  let s := pyTake value 19
  match strptimeFmt (some 'T') s with
  | some d => some d
  | none =>
      match strptimeFmt (some ' ') s with
      | some d => some d
      | none => strptimeYmd s

/-- The per-value date parse of `extract_date_from_note`: a number is a Unix
timestamp (milliseconds above `1e12`, else seconds; Python `bool` is an `int`
subclass, so `True` reaching this point is the timestamp `1`), a string is tried
against the three formats on its first 19 characters. -/
def parseDateValue : JValue → Option PyDateTime
  | .num n => fromTimestampOpt (if n > 10 ^ 12 then n.fdiv 1000 else n)
  | .bool b => fromTimestampOpt (if b then 1 else 0)
  | .str s => tryFormats s
  | _ => none

/-- The key loop of `extract_date_from_note`: a falsy value (`None`, `0`, `""`,
`False`) is skipped (`if not value: continue`); a present truthy value is
parsed, and on failure the loop moves to the next key. -/
def extract_date_go (note : JDict) : List String → Option PyDateTime
  | [] => none
  | k :: ks =>
      let value := dgetD note k
      if pyTruthy value then
        match parseDateValue value with
        | some d => some d
        | none => extract_date_go note ks
      else
        extract_date_go note ks

/-- `extract_date_from_note` (`note_processor.py`). -/
def extract_date_from_note (note : JDict) : Option PyDateTime :=
  extract_date_go note date_keys

/-- Date extraction as the specification words it (for comparison with
`extract_date_from_note`): scan the candidate keys in order; a present value is
parsed — numeric as a Unix timestamp (milliseconds above `1e12`, else seconds),
string against the three formats on its first 19 characters — and an
unparseable candidate moves extraction to the next key.  (No special treatment
of falsy values such as `0`.) -/
def extract_date_spec (note : JDict) : Option PyDateTime :=
  date_keys.findSome? fun k => (dget note k).bind parseDateValue

/-- Date extraction as the specification words it, amended by the behaviour the
code actually has on falsy candidate values (`0`, `False`, `""`, `None`): such a
value is skipped like an absent key. -/
def extract_date_spec_amended (note : JDict) : Option PyDateTime :=
  date_keys.findSome? fun k =>
    (dget note k).bind fun v => if pyTruthy v then parseDateValue v else none

/-- Is a key OCR-like: its lowercased name contains `"ocr"`, `"image_text"` or
`"img_text"`. -/
def isOcrKey (k : String) : Bool :=
  let kl := pyLower k
  hasSubstr kl "ocr" || hasSubstr kl "image_text" || hasSubstr kl "img_text"

/-- Append a trimmed fragment unless empty or already seen (the `seen` set of
`_collect_ocr` holds exactly the strings already in `ocr_texts`). -/
def pushFragment (acc : List String) (s : String) : List String :=
  let normalized := pyStrip s
  if normalized ≠ "" then
    if acc.contains normalized then acc else acc ++ [normalized]
  else acc

mutual
/-- `_collect_ocr` of `extract_ocr_text`: dicts dispatch per key, lists recurse
into elements, scalars are ignored. -/
def collectOcr : JValue → List String → List String
  | .obj fields, acc => collectOcrFields fields acc
  | .arr items, acc => collectOcrItems items acc
  | _, acc => acc

/-- Per-key dispatch: under an OCR-like key a string is collected and a list is
scanned (strings collected, dicts recursed); any other value under an OCR-like
key — in particular a dict — is ignored.  Under a non-OCR key the value is
recursed into unconditionally. -/
def collectOcrFields : JObj → List String → List String
  | .nil, acc => acc
  | .cons k v rest, acc =>
      let acc' :=
        if isOcrKey k then
          match v with
          | .str s => if pyStrip s ≠ "" then pushFragment acc s else acc
          | .arr items => collectOcrList items acc
          | _ => acc
        else collectOcr v acc
      collectOcrFields rest acc'

/-- Elements of a list found under an OCR-like key: non-empty strings are
collected, dict elements are recursed into, anything else is ignored. -/
def collectOcrList : JArr → List String → List String
  | .nil, acc => acc
  | .cons item rest, acc =>
      let acc' :=
        match item with
        | .str s => if pyStrip s ≠ "" then pushFragment acc s else acc
        | .obj fields => collectOcrFields fields acc
        | _ => acc
      collectOcrList rest acc'

/-- Elements of a list reached outside an OCR-like key: full recursion. -/
def collectOcrItems : JArr → List String → List String
  | .nil, acc => acc
  | .cons item rest, acc => collectOcrItems rest (collectOcr item acc)
end

/-- `extract_ocr_text` (`note_processor.py`). -/
def extract_ocr_text (note : JDict) : String :=
  String.intercalate "\n\n" (collectOcrFields note [])

/-- First key of `keys` whose value is a string with non-blank strip; returns
the stripped value (`extract_post_text` strips what it appends). -/
def firstStrippedOf (note : JDict) (keys : List String) : Option String :=
  keys.findSome? fun k =>
    match dget note k with
    | some (.str s) => if pyStrip s ≠ "" then some (pyStrip s) else none
    | _ => none

/-- `extract_post_text` (`note_processor.py`): first non-blank title key, then
first non-blank description key, joined by a newline. -/
def extract_post_text (note : JDict) : String :=
  let title := firstStrippedOf note ["title", "note_title", "name"]
  let body := firstStrippedOf note ["desc", "description", "content", "text",
    "note_desc", "title"]
  String.intercalate "\n" (title.toList ++ body.toList)

/-- Python `len` (code points). -/
def pyLen (s : String) : Nat := s.data.length

/-- The ordered selection patterns of `check_alpha_picks_quality`. -/
def selection_patterns : List (List RTok) :=
  [patNumberedTicker, patTickerPair, patChineseOrdinal, patChineseCounter]

/-- The date-shaped patterns of `check_alpha_picks_quality`. -/
def quality_date_patterns : List (List RTok) :=
  [patDateYmd, patDateMdy, patDateDots, patDateCn]

/-- The running-maximum selection count over all patterns and matches: a digit
match contributes its integer value, any other match the number of embedded
uppercase 2–5 letter tokens. -/
def selectionCountOf (combined_text : String) : Nat :=
  selection_patterns.foldl
    (fun cnt pat =>
      (findall pat combined_text).foldl
        (fun c m =>
          if pyIsDigit m then max c (digitsToNat m)
          else max c (findall patSymbol m).length)
        cnt)
    0

/-- `check_alpha_picks_quality` (`note_processor.py`): the four quality signals,
their weights in tenths, the explanatory notes, and the high-quality flag
`score >= 0.7 and selection_count >= 3`. -/
def check_alpha_picks_quality (note : ProcessedNote) : Bool × Nat × List String :=
  let combined_text :=
    pyLower (orEmpty note.post_text) ++ " " ++ pyLower (orEmpty note.ocr_text)
  let has_seeking_alpha :=
    ["seeking alpha", "alpha picks", "alpha pick", "seekingalpha"].any
      (fun t => hasSubstr combined_text t)
  let s1 : Nat := if has_seeking_alpha then 3 else 0
  let n1 := if has_seeking_alpha then "References Seeking Alpha/Alpha Picks"
            else "Missing Seeking Alpha reference"
  let selection_count := selectionCountOf combined_text
  let s2 : Nat := if selection_count ≥ 3 then 4
                  else if selection_count ≥ 1 then 2 else 0
  let n2 := if selection_count ≥ 3 then
              s!"Contains {selection_count}+ selections"
            else if selection_count ≥ 1 then
              s!"Contains {selection_count} selection(s) - low quality"
            else "No clear multiple selections found"
  let has_date := quality_date_patterns.any (fun p => hasMatch p combined_text)
  let sel_date_truthy := match note.selection_date with
    | some s => s ≠ ""
    | none => false
  let s3 : Nat := if has_date || sel_date_truthy then 2 else 0
  let n3 := if has_date || sel_date_truthy then "Contains selection date"
            else "Missing selection date"
  let has_substantial_content :=
    (pyLen (orEmpty note.post_text) > 50 && pyLen (orEmpty note.ocr_text) > 50)
      || pyLen combined_text > 200
  let s4 : Nat := if has_substantial_content then 1 else 0
  let n4 := if has_substantial_content then "Has substantial content"
            else "Content may be incomplete"
  let score := s1 + s2 + s3 + s4
  let is_high_quality := score ≥ 7 && selection_count ≥ 3
  (is_high_quality, score, [n1, n2, n3, n4])

/-- The selection date mined from `str(title) + " " + str(desc)` (both loops of
`process_notes` use this same fragment): the first `\d{4}` dash-or-slash `\d{2}`
dash-or-slash `\d{2}` match, slashes replaced by dashes, parsed with
`strptime("%Y-%m-%d")` and day-truncated; a `ValueError` leaves it absent. -/
def selection_date_from_text (raw_note : JDict) : Option PyDateTime :=
  let title := pyOr (dgetD raw_note "title") (.str "")
  let desc := pyOr (dgetD raw_note "desc") (.str "")
  let post_text := pyStr title ++ " " ++ pyStr desc
  match firstMatch patDateYmd post_text with
  | none => none
  | some m =>
      match strptimeYmd (pyReplaceChar m '/' '-') with
      | some d => some (PyDateTime.truncateDay d)
      | none => none

/-- The first pass of the latest-date policy: a note contributes its dates only
when `extract_date_from_note` finds a metadata date; then the text-mined date
(if any) is appended first, followed by the day-truncated metadata date. -/
def latest_all_dates (raw_notes : List JDict) : List PyDateTime :=
  raw_notes.foldr
    (fun raw_note acc =>
      (match extract_date_from_note raw_note with
       | some note_date =>
           (selection_date_from_text raw_note).toList
             ++ [PyDateTime.truncateDay note_date]
       | none => []) ++ acc)
    []

/-- The `note_id` resolution at the top of the `process_notes` loop:
`raw_note.get("note_id") or raw_note.get("id") or raw_note.get("noteId", "")`. -/
def loopNoteId (raw_note : JDict) : JValue :=
  pyOr (dgetD raw_note "note_id")
    (pyOr (dgetD raw_note "id") (dgetDef raw_note "noteId" (.str "")))

/-- One iteration of the `process_notes` loop: skip notes without a truthy id,
compute the effective date (text-mined date wins over metadata), apply the date
filter (`exact` is `filter_today or filter_latest_date`: exact day equality;
otherwise keep dates on or after the cutoff; a dateless note is dropped exactly
in the exact modes), then build and score the `ProcessedNote`. -/
def process_one (exact : Bool) (cutoff_date : PyDateTime) (raw_note : JDict) :
    Option ProcessedNote :=
  let note_id := loopNoteId raw_note
  if pyTruthy note_id then
    let note_date := extract_date_from_note raw_note
    let sdft := selection_date_from_text raw_note
    let effective_date := optOr sdft note_date
    let keep : Bool :=
      match effective_date with
      | some e =>
          let en := PyDateTime.truncateDay e
          let cn := PyDateTime.truncateDay cutoff_date
          if exact then en = cn else !(PyDateTime.lt en cn)
      | none => !exact
    if keep then
      let post_text := extract_post_text raw_note
      let ocr_text := extract_ocr_text raw_note
      let combined := pyLower (post_text ++ " " ++ ocr_text)
      let selection_date := firstMatch patDateYmd combined
      let publish_time := note_date.map strftimeFull
      let pn : ProcessedNote :=
        { note_id := pyStr note_id
          title := pyOr (dgetD raw_note "title")
            (pyOr (dgetD raw_note "note_title") (dgetD raw_note "name"))
          post_text := some post_text
          ocr_text := some ocr_text
          author := pyOr (dgetD raw_note "user_nickname")
            (pyOr (dgetD raw_note "user_name") (dgetD raw_note "author"))
          url := pyOr (dgetD raw_note "note_url")
            (pyOr (dgetD raw_note "url") (dgetD raw_note "share_link"))
          selection_date := selection_date
          publish_time := publish_time
          raw := raw_note }
      let q := check_alpha_picks_quality pn
      some { pn with is_high_quality := q.1, quality_score := q.2.1,
                     quality_notes := q.2.2 }
    else none
  else none

/-- The sort key `(is_high_quality, quality_score, publish_time or "")`. -/
def sortKeyTriple (n : ProcessedNote) : Nat × Nat × String :=
  ((if n.is_high_quality then 1 else 0), n.quality_score, orEmpty n.publish_time)

/-- Lexicographic `<=` on sort keys (booleans as 0/1, strings by code point). -/
def tripleLe (x y : Nat × Nat × String) : Bool :=
  if x.1 ≠ y.1 then x.1 < y.1
  else if x.2.1 ≠ y.2.1 then x.2.1 < y.2.1
  else strLeB x.2.2 y.2.2

/-- "`a` may stay before `b`" in the descending sort: key of `b` ≤ key of `a`. -/
def sortLeDesc (a b : ProcessedNote) : Bool :=
  tripleLe (sortKeyTriple b) (sortKeyTriple a)

/-- Stable insertion of `a` into an already-sorted list: `a` goes after every
element it does not strictly precede. -/
def insStable (le : ProcessedNote → ProcessedNote → Bool) (a : ProcessedNote) :
    List ProcessedNote → List ProcessedNote
  | [] => [a]
  | b :: bs =>
      if le a b && !le b a then a :: b :: bs else b :: insStable le a bs

/-- `list.sort(key=..., reverse=True)`: Python's sort is stable, and a stable
sort under a total preorder has a unique result, so stable insertion sort
computes it (and, unlike well-founded merge sort, evaluates by `rfl`). -/
def sortStable (le : ProcessedNote → ProcessedNote → Bool)
    (l : List ProcessedNote) : List ProcessedNote :=
  l.foldl (fun acc a => insStable le a acc) []

/-- The policy selection at the top of `process_notes`: the cutoff date used by
the filter and the target date returned for logging.  `filter_today` is tested
first, so it shadows `filter_latest_date`; the latest policy falls back to
today (target) and the rolling cutoff when the first pass finds no dates. -/
def cutoffTargetOf (raw_notes : List JDict) (days_filter : Int)
    (filter_today filter_latest_date : Bool) (now : PyDateTime) :
    PyDateTime × Option PyDateTime :=
  let today := PyDateTime.truncateDay now
  if filter_today then (today, some today)
  else if filter_latest_date then
    match maxDate (latest_all_dates raw_notes) with
    | some target => (target, some target)
    | none => (subDays today days_filter, some today)
  else (subDays today days_filter, none)

/-- `process_notes` (`note_processor.py`).  `now` stands for the single
`datetime.now()` read; `today` is its day truncation.  Returns the selected
notes and the target date for logging. -/
def process_notes (raw_notes : List JDict) (days_filter : Int) (max_results : Nat)
    (filter_today filter_latest_date : Bool) (now : PyDateTime) :
    List ProcessedNote × Option PyDateTime :=
  let cutoff_target :=
    cutoffTargetOf raw_notes days_filter filter_today filter_latest_date now
  let processed := raw_notes.filterMap
    (process_one (filter_today || filter_latest_date) cutoff_target.1)
  let sorted := sortStable sortLeDesc processed
  let high_quality := sorted.filter (·.is_high_quality)
  (if !high_quality.isEmpty then high_quality.take max_results
   else sorted.take max_results,
   cutoff_target.2)

/-! ## `note_parser.py` (the second source variant, `src/xhs_alpha_picks/`) -/

namespace NoteParser

/-- The dataclass `XhsNote`. -/
structure XhsNote where
  note_id : String
  title : Option String := none
  description : Option String := none
  author : Option String := none
  image_texts : List String := []
  url : Option String := none
  raw : JDict := .nil

/-- `_first_str`: first key present whose value is a string with non-blank
strip; returns the raw (unstripped) value. -/
def first_str (data : JDict) (keys : List String) : Option String :=
  keys.findSome? fun k =>
    match dget data k with
    | some (.str s) => if pyStrip s ≠ "" then some s else none
    | _ => none

/-- `_maybe_note`: the lowercased keys are intersected with the literal set
`{"note_id", "noteid", "id", "noteid"}` (note the repeated `"noteid"` — the
set does not contain `"nid"`), with a case-sensitive fallback on
`note_id`/`noteId`/`id`. -/
def maybe_note (value : JDict) : Option JDict :=
  if value.keys.any (fun k => ["note_id", "noteid", "id", "noteid"].contains (pyLower k))
  then some value
  else if (dget value "note_id").isSome || (dget value "noteId").isSome
      || (dget value "id").isSome then
    some value
  else none

mutual
/-- `_collect_note_dicts`: depth-first search for note-like dicts — a matching
dict is collected and its values are still recursed into; list elements are
recursed in order. -/
def collect_note_dicts : JValue → List JDict
  | .obj fields =>
      (match maybe_note fields with
       | some c => [c]
       | none => []) ++ collectNDFields fields
  | .arr items => collectNDItems items
  | _ => []

def collectNDFields : JObj → List JDict
  | .nil => []
  | .cons _ v rest => collect_note_dicts v ++ collectNDFields rest

def collectNDItems : JArr → List JDict
  | .nil => []
  | .cons item rest => collect_note_dicts item ++ collectNDItems rest
end

/-- The candidate OCR-ish keys of `_collect_text_fragments`. -/
def fragment_keys : List String :=
  ["image_texts", "image_text", "ocr_texts", "ocr_text", "texts"]

/-- What one candidate key contributes in `_collect_text_fragments`: a string
with non-blank strip is appended as-is; otherwise a `Sequence` is scanned for
such strings (a blank string also falls into the `Sequence` branch, but each of
its whitespace characters strips to falsy, so it contributes nothing). -/
def fragmentsOfValue : Option JValue → List String
  | some (.str s) => if pyStrip s ≠ "" then [s] else []
  | some (.arr items) =>
      items.toList.filterMap fun item =>
        match item with
        | .str s => if pyStrip s ≠ "" then some s else none
        | _ => none
  | _ => []

mutual
/-- `_collect_text_fragments` before deduplication: the five candidate keys in
order, then a nested scan of dict values and of dict elements of list values. -/
def collect_fragments_raw : JDict → List String
  | d =>
      (fragment_keys.foldr (fun k acc => fragmentsOfValue (dget d k) ++ acc) [])
        ++ nestedFields d

def nestedFields : JObj → List String
  | .nil => []
  | .cons _ v rest =>
      (match v with
       | .obj inner => collect_fragments_raw inner
       | .arr items => nestedItems items
       | _ => []) ++ nestedFields rest

def nestedItems : JArr → List String
  | .nil => []
  | .cons item rest =>
      (match item with
       | .obj inner => collect_fragments_raw inner
       | _ => []) ++ nestedItems rest
end

/-- The final dedup pass of `_collect_text_fragments`: strip each fragment,
drop blanks and repeats, keep first-seen order. -/
def dedupStripped (fragments : List String) : List String :=
  (fragments.foldl
    (fun acc fragment =>
      let normalized := pyStrip fragment
      if normalized ≠ "" && !acc.contains normalized then acc ++ [normalized]
      else acc)
    [])

/-- `_collect_text_fragments` (`note_parser.py`). -/
def collect_text_fragments (raw_note : JDict) : List String :=
  dedupStripped (collect_fragments_raw raw_note)

/-- The ordered author keys used by `extract_notes` — `user_name` first. -/
def author_keys : List String := ["user_name", "user_nickname", "author", "nickname"]

/-- `extract_notes` (`note_parser.py`): walk the payload for note-like dicts,
drop those without a first-string identifier (`note_id`/`id`/`noteId`/`nid`),
and normalize the fields of the rest. -/
def extract_notes (payload : JValue) : List XhsNote :=
  (collect_note_dicts payload).filterMap fun raw_note =>
    match first_str raw_note ["note_id", "id", "noteId", "nid"] with
    | none => none
    | some note_id =>
        some { note_id := note_id
               title := first_str raw_note ["title", "note_title", "name"]
               description := first_str raw_note
                 ["desc", "description", "note_desc", "content", "text"]
               author := first_str raw_note author_keys
               image_texts := collect_text_fragments raw_note
               url := first_str raw_note ["note_url", "url", "share_link", "link"]
               raw := raw_note }

end NoteParser

/-! ## `llm_agent.py`: payload extraction and the summary/detail merge

The JSON decoding of the tool's text chunks (`json.loads`) is abstracted: a
chunk is given as `Option JValue`, `none` standing for a chunk whose decode
raised (the code catches and ignores it). -/

namespace LlmAgent

/-- `_convert_feed_to_note`: adapt a search-result feed item, reading nested
`noteCard`/`user`/`interactInfo`/`cover` maps (absent or non-map nested values
collapse to the empty dict). -/
def convert_feed_to_note : JValue → Option JDict
  | .obj feed =>
      let note_id := pyOr (dgetD feed "id")
        (pyOr (dgetD feed "note_id") (dgetDef feed "noteId" (.str "")))
      if pyTruthy note_id then
        let note_card := asObj (dgetDef feed "noteCard" (.obj .nil))
        let user := asObj (dgetDef note_card "user" (.obj .nil))
        let interact_info := asObj (dgetDef note_card "interactInfo" (.obj .nil))
        let cover := asObj (dgetDef note_card "cover" (.obj .nil))
        let base : List (String × JValue) :=
          [("note_id", note_id),
           ("title", pyOr (dgetD note_card "displayTitle") (dgetD note_card "title")),
           ("type", dgetDef note_card "type" (.str "normal")),
           ("user_nickname", pyOr (dgetD user "nickname") (dgetD user "nickName")),
           ("user_id", dgetD user "userId"),
           ("liked_count", dgetDef interact_info "likedCount" (.str "0")),
           ("comment_count", dgetDef interact_info "commentCount" (.str "0")),
           ("shared_count", dgetDef interact_info "sharedCount" (.str "0")),
           ("cover_url", pyOr (dgetD cover "urlDefault") (dgetD cover "url")),
           ("model_type", dgetD feed "modelType"),
           ("xsec_token", dgetD feed "xsecToken")]
        let time_info := pyOr (dgetD feed "time")
          (pyOr (dgetD note_card "time") (dgetD feed "timestamp"))
        let withTime :=
          if pyTruthy time_info then base ++ [("time", time_info)] else base
        some (jobj (withTime ++ [("raw", .obj feed)]))
      else none
  | _ => none

mutual
/-- `_extract_notes_from_payload`: a dict with a case-sensitive
`note_id`/`id`/`noteId` key is itself a note; a dict with a `feeds` key adapts
each feed; any other dict has its values searched; lists are searched
elementwise.  (Iterating a non-list `feeds` value would walk keys or
characters, none of which are dicts, producing nothing.) -/
def extract_notes_from_payload : JValue → List JDict
  | .obj fields =>
      if (dget fields "note_id").isSome || (dget fields "id").isSome
          || (dget fields "noteId").isSome then
        [fields]
      else if (dget fields "feeds").isSome then
        match dgetD fields "feeds" with
        | .arr feeds => feeds.toList.filterMap convert_feed_to_note
        | _ => []
      else
        searchValues fields
  | .arr items => searchItems items
  | _ => []

def searchValues : JObj → List JDict
  | .nil => []
  | .cons _ v rest => extract_notes_from_payload v ++ searchValues rest

def searchItems : JArr → List JDict
  | .nil => []
  | .cons item rest => extract_notes_from_payload item ++ searchItems rest
end

/-- The OCR chain of `_convert_detail_to_note` for one image dict:
`ocr_text or image_text or text or infoList-default-[]`, then strings and
dict-held texts are gathered. -/
def imageTexts (img : JDict) : List String :=
  let ocr_text := pyOr (dgetD img "ocr_text")
    (pyOr (dgetD img "image_text")
      (pyOr (dgetD img "text") (dgetDef img "infoList" (.arr .nil))))
  match ocr_text with
  | .str s => if pyStrip s ≠ "" then [pyStrip s] else []
  | .arr items =>
      items.toList.foldr
        (fun item acc =>
          (match item with
           | .obj inner =>
               match pyOr (dgetD inner "text") (dgetD inner "ocr_text") with
               | .str t => if t ≠ "" then [pyStrip t] else []
               | _ => []  -- `if text and isinstance(text, str)`: non-strings and falsy values are skipped
           | .str s => [pyStrip s]  -- appended even when blank
           | _ => []) ++ acc)
        []
  | _ => []

/-- `_convert_detail_to_note`: adapt a full-fetch record (fields possibly
nested under `note_detail`), collecting image OCR text, interaction counts and
the URL; returns `none` when no identifier is found. -/
def convert_detail_to_note (detail : JDict) : Option JDict :=
  let nested := asObj (pyOr (dgetDef detail "note_detail" (.obj .nil)) (.obj .nil))
  let note_id :=
    pyOr (dgetD detail "note_id")
      (pyOr (dgetD detail "id")
        (pyOr (dgetD detail "noteId")
          (pyOr (dgetD nested "note_id") (dgetDef nested "id" (.str "")))))
  if pyTruthy note_id then
    let note_detail :=
      match dget detail "note_detail" with
      | some (.obj fields) => fields
      | some _ => detail  -- present but not a dict: fall back to the outer record
      | none => detail
    let user := asObj (dgetDef note_detail "user" (.obj .nil))
    let image_texts :=
      match dgetDef note_detail "images" (.arr .nil) with
      | .arr imgs => imgs.toList.foldr
          (fun img acc =>
            (match img with
             | .obj inner => imageTexts inner
             | _ => []) ++ acc)
          []
      | _ => []
    let interact_info := asObj (dgetDef note_detail "interact_info"
      (dgetDef note_detail "interactInfo" (.obj .nil)))
    let base : List (String × JValue) :=
      [("note_id", note_id),
       ("title", pyOr (dgetD note_detail "title")
         (pyOr (dgetD note_detail "display_title")
           (pyOr (dgetD note_detail "displayTitle") (dgetD note_detail "note_title")))),
       ("description", pyOr (dgetD note_detail "desc")
         (pyOr (dgetD note_detail "description")
           (pyOr (dgetD note_detail "note_desc") (dgetD note_detail "content")))),
       ("user_nickname", pyOr (dgetD user "nickname") (dgetD user "nickName")),
       ("user_id", pyOr (dgetD user "userId") (dgetD user "user_id"))]
    let time_info := pyOr (dgetD note_detail "time")
      (pyOr (dgetD note_detail "timestamp")
        (pyOr (dgetD note_detail "create_time")
          (pyOr (dgetD note_detail "publish_time") (dgetD note_detail "created_at"))))
    let withTime :=
      if pyTruthy time_info then base ++ [("time", time_info)] else base
    let withImages :=
      if !image_texts.isEmpty then
        withTime ++ [("image_texts", .arr (jarr (image_texts.map .str))),
                     ("ocr_text", .str (String.intercalate "\n\n" image_texts))]
      else withTime
    some (jobj (withImages ++
      [("url", pyOr (dgetD note_detail "url")
         (pyOr (dgetD note_detail "note_url")
           (pyOr (dgetD note_detail "share_link") (dgetD note_detail "link")))),
       ("liked_count", pyOr (dgetD interact_info "liked_count")
         (dgetDef interact_info "likedCount" (.str "0"))),
       ("comment_count", pyOr (dgetD interact_info "comment_count")
         (dgetDef interact_info "commentCount" (.str "0"))),
       ("shared_count", pyOr (dgetD interact_info "shared_count")
         (dgetDef interact_info "sharedCount" (.str "0"))),
       ("raw", .obj detail)]))
  else none

/-- The merge step of `search_keyword` (lines 256–266): scan `raw_notes` for
the first entry whose `note_id` equals the detail note's `note_id`; update that
entry in place with `dict.update` (every binding of the detail note wins,
empty or not), else append the detail note. -/
def merge_detail_note : List JDict → JDict → List JDict
  | [], note => [note]
  | d :: ds, note =>
      if jvBeq (dgetD d "note_id") (dgetD note "note_id") then
        dupdate d note :: ds
      else
        d :: merge_detail_note ds note

/-- One decoded text chunk of the extraction loop of `search_keyword`: a dict
with `feeds` adapts each feed and appends; a dict with
`note_detail`/`note_id`/`id` is converted as a detail record and merged; any
other value is searched by `_extract_notes_from_payload` and the findings are
appended (without deduplication). -/
def process_text_chunk (raw_notes : List JDict) (data : JValue) : List JDict :=
  match data with
  | .obj fields =>
      if (dget fields "feeds").isSome then
        raw_notes ++
          (match dgetD fields "feeds" with
           | .arr feeds => feeds.toList.filterMap convert_feed_to_note
           | _ => [])
      else if (dget fields "note_detail").isSome || (dget fields "note_id").isSome
          || (dget fields "id").isSome then
        match convert_detail_to_note fields with
        | some note => merge_detail_note raw_notes note
        | none => raw_notes
      else
        raw_notes ++ extract_notes_from_payload data
  | _ => raw_notes ++ extract_notes_from_payload data

/-- The raw-note list produced by folding the text chunks of one run's payloads
(`none` = a chunk whose JSON decode failed, ignored by the code). -/
def extract_raw_notes (chunks : List (Option JValue)) : List JDict :=
  chunks.foldl
    (fun acc chunk =>
      match chunk with
      | some data => process_text_chunk acc data
      | none => acc)
    []

end LlmAgent

/-! ### Concrete payloads used by the claim theorems -/

/-- A summary record reachable only through the generic payload walk: a dict
without top-level `feeds`/`note_id`/`id`, holding one note-like item. -/
def summaryItemsChunk : JValue :=
  .obj (jobj [("items", .arr (jarr
    [.obj (jobj [("note_id", .str "a"), ("title", .str "T")])]))])

/-- A detail record carrying only the identifier (every other field absent). -/
def detailOnlyChunk : JValue :=
  .obj (jobj [("note_id", .str "a")])

/-- A summary raw note with a populated title. -/
def oldSummaryNote : JDict := jobj [("note_id", .str "a"), ("title", .str "T")]

/-- A detail note whose title binding is `None`. -/
def detailNullTitleNote : JDict := jobj [("note_id", .str "a"), ("title", .null)]

/-- A raw note with an id, a metadata date 2025-10-30 and a text date
2025-10-31 in its title. -/
def latestBatchNote : JDict :=
  jobj [("note_id", .str "a"), ("time", .str "2025-10-30"),
        ("title", .str "2025-10-31")]

/-- A raw note carrying only an id (no date anywhere). -/
def simpleIdNote : JDict := jobj [("note_id", .str "x")]

/-- A record carrying both `user_name` and `user_nickname`. -/
def authorBothNote : JDict :=
  jobj [("note_id", .str "n1"), ("user_name", .str "Alice"),
        ("user_nickname", .str "Bob")]

/-! ## Supporting lemmas -/

theorem dget_dset : ∀ (d : JDict) (k : String) (v : JValue) (k' : String),
    dget (dset d k v) k' = if k = k' then some v else dget d k'
  | .nil, k, v, k' => by
      by_cases h : k = k' <;> simp [dset, dget, h]
  | .cons k1 v1 rest, k, v, k' => by
      by_cases h1 : k1 = k
      · subst h1
        by_cases h : k1 = k' <;> simp [dset, dget, h]
      · have ih := dget_dset rest k v k'
        by_cases h : k1 = k'
        · subst h
          have h2 : ¬ k = k1 := fun hh => h1 hh.symm
          simp [dset, dget, h1, h2]
        · simp [dset, dget, h1, h, ih]

theorem dget_eq_none_of_not_mem : ∀ (d : JDict) (k : String), k ∉ d.keys →
    dget d k = none
  | .nil, _, _ => rfl
  | .cons k1 v1 rest, k, h => by
      simp [JObj.keys] at h
      have h1 : ¬ k1 = k := fun hk => h.1 hk.symm
      simp [dget, h1, dget_eq_none_of_not_mem rest k h.2]

theorem dget_dupdate : ∀ (new old : JDict) (k : String), new.keys.Nodup →
    dget (dupdate old new) k = optOr (dget new k) (dget old k)
  | .nil, old, k, _ => by simp [dupdate, dget, optOr]
  | .cons k1 v1 rest, old, k, hnodup => by
      have hn : k1 ∉ rest.keys ∧ rest.keys.Nodup := by
        simpa [JObj.keys, List.nodup_cons] using hnodup
      rw [dupdate, dget_dupdate rest (dset old k1 v1) k hn.2, dget_dset]
      by_cases h : k1 = k
      · subst h
        rw [dget_eq_none_of_not_mem rest k1 hn.1]
        simp [dget, optOr]
      · simp [dget, h, optOr]

theorem insStable_length (le : ProcessedNote → ProcessedNote → Bool)
    (a : ProcessedNote) (l : List ProcessedNote) :
    (insStable le a l).length = l.length + 1 := by
  induction l with
  | nil => rfl
  | cons b bs ih =>
      by_cases h : (le a b && !le b a) = true <;> simp [insStable, h, ih]

theorem sortStable_length (le : ProcessedNote → ProcessedNote → Bool)
    (l : List ProcessedNote) : (sortStable le l).length = l.length := by
  suffices h : ∀ acc : List ProcessedNote,
      (l.foldl (fun acc a => insStable le a acc) acc).length = acc.length + l.length by
    simpa using h []
  induction l with
  | nil => simp
  | cons b bs ih =>
      intro acc
      simp [List.foldl_cons, ih, insStable_length]
      omega

/-- The key loop of `extract_date_from_note`, rephrased as a first-success scan
with the falsy-skip folded into the per-key parser. -/
theorem extract_date_go_eq_findSome (note : JDict) (ks : List String) :
    extract_date_go note ks =
      ks.findSome? fun k =>
        (dget note k).bind fun v => if pyTruthy v then parseDateValue v else none := by
  induction ks with
  | nil => rfl
  | cons k ks ih =>
      have hf : ((dget note k).bind fun v =>
            if pyTruthy v then parseDateValue v else none)
          = if pyTruthy (dgetD note k) then parseDateValue (dgetD note k) else none := by
        cases hv : dget note k
        · simp [dgetD, hv, pyTruthy]
        · simp [dgetD, hv]
      rw [List.findSome?_cons, hf, extract_date_go]
      by_cases ht : pyTruthy (dgetD note k) = true
      · simp only [ht, if_true]
        cases parseDateValue (dgetD note k) <;> simp [ih]
      · simp only [Bool.not_eq_true] at ht
        simp [ht, ih]

/-! ## The claims -/

/-- C1: for a note whose combined text is "1. AAPL 2. TSLA 3. MSFT" (post text
equal to that string, empty OCR text), the claim says `check_alpha_picks_quality`
finds a selection count of at least 3 and adds the +0.40 enumerated-selection
signal.  The code lowercases the combined text before matching, so the
uppercase-only selection patterns never fire: the note scores 0.0 with the
"No clear multiple selections found" explanation — the claim describes the
commented intent of the patterns, not what the code computes. -/
theorem c1_enumerated_example_scores_zero :
    check_alpha_picks_quality
      { note_id := "n1", post_text := some "1. AAPL 2. TSLA 3. MSFT",
        ocr_text := some "" } =
      (false, 0,
       ["Missing Seeking Alpha reference", "No clear multiple selections found",
        "Missing selection date", "Content may be incomplete"]) := rfl

/-- C5: the claim says a map qualifies as a candidate note record iff it has a
key from {note_id, id, noteId, nid} (case-sensitively or -insensitively), so a
map whose only identifier key is `nid` qualifies.  In the code, `_maybe_note`'s
identifier set literal is `{"note_id", "noteid", "id", "noteid"}` — `"noteid"`
repeated where `"nid"` was evidently intended (extract_notes' own id-key list
includes `"nid"`), so a `{"nid": ...}` map is rejected and the note is lost. -/
theorem c5_nid_only_map_rejected :
    NoteParser.maybe_note (jobj [("nid", .str "123")]) = none ∧
    NoteParser.extract_notes (.obj (jobj [("nid", .str "123")])) = [] :=
  ⟨rfl, rfl⟩

/-- C9: when both `filter_today` and `filter_latest_date` are passed,
`filter_today` wins: the `if`-chain tests it first and the in-loop exact-mode
test only reads the disjunction of the two flags, so the output is identical to
a `filter_today`-only run and the latest-date first pass is never consulted. -/
theorem c9_filter_today_shadows_latest (raw_notes : List JDict)
    (days_filter : Int) (max_results : Nat) (fl : Bool) (now : PyDateTime) :
    process_notes raw_notes days_filter max_results true fl now =
      process_notes raw_notes days_filter max_results true false now := rfl

/-- C10: in OCR collection, a dict sitting directly under an OCR-named key is
ignored (its strings are not collected), a dict reached as an element of a list
under an OCR-named key is traversed, and a non-OCR-named key is recursed into
unconditionally. -/
theorem c10_ocr_key_dict_value_ignored :
    (∀ inner : JObj, extract_ocr_text (jobj [("ocr", .obj inner)]) = "") ∧
    (∀ inner : JObj,
      extract_ocr_text (jobj [("ocr", .arr (jarr [.obj inner]))])
        = extract_ocr_text inner) ∧
    (∀ v : JValue, collectOcrFields (jobj [("data", v)]) [] = collectOcr v []) :=
  ⟨fun _ => rfl, fun _ => rfl, fun _ => rfl⟩

/-- C2 (counterexample): the claim's dedup/merge invariant fails both ways.
Two identical summary records reached through the generic payload walk are both
kept (two entries with `note_id` "a"), and merging a detail record that lacks a
title into a summary record whose title is populated overwrites that title with
`None` (`dict.update` takes every field of the detail record, empty or not). -/
theorem c2_counterexample :
    ((LlmAgent.extract_raw_notes [some summaryItemsChunk, some summaryItemsChunk]).map
      (fun d => dget d "note_id"))
      = [some (.str "a"), some (.str "a")] ∧
    ((LlmAgent.extract_raw_notes [some summaryItemsChunk, some detailOnlyChunk]).map
      (fun d => dget d "title"))
      = [some .null] :=
  ⟨rfl, rfl⟩

/-- C3 (counterexample): a batch whose single note has a text-mined date
`2025-10-31` in its title but no parseable metadata date.  The claim says the
latest-date first pass collects that text date, making `2025-10-31` the target
day; the code's first pass only looks at a note's text after
`extract_date_from_note` succeeds, so it collects nothing and falls back to
today (here 2025-01-01). -/
theorem c3_counterexample :
    (process_notes [jobj [("note_id", .str "a"), ("title", .str "2025-10-31")]]
        2 1 false true ⟨2025, 1, 1, 0, 0, 0⟩).2
      = some ⟨2025, 1, 1, 0, 0, 0⟩ ∧
    (⟨2025, 1, 1, 0, 0, 0⟩ : PyDateTime) ≠ ⟨2025, 10, 31, 0, 0, 0⟩ :=
  ⟨rfl, by decide⟩

/-- C4 (counterexample): a non-empty batch with `max_results = 1` whose only
note has no identifier.  The loop skips it, nothing survives filtering, and
`process_notes` returns the empty list — the claim's "for every non-empty input
batch … non-empty result" fails; the fallback only guarantees output when some
note survives id and date filtering. -/
theorem c4_counterexample :
    process_notes [JObj.nil] 2 1 false false ⟨2025, 10, 31, 0, 0, 0⟩
      = ([], none) ∧ ([JObj.nil] : List JDict) ≠ [] :=
  ⟨rfl, by simp⟩

/-- C7 (counterexample): on `{"time": 0}` the claim's procedure interprets the
numeric value `0` as seconds since the epoch and yields 1970-01-01, but the
code's `if not value: continue` skips falsy values, so it finds no date. -/
theorem c7_counterexample :
    extract_date_from_note (jobj [("time", .num 0)]) = none ∧
    extract_date_spec (jobj [("time", .num 0)]) = some ⟨1970, 1, 1, 0, 0, 0⟩ :=
  ⟨rfl, rfl⟩

/-- C7 (amended): date extraction scans the keys in order exactly as the claim
says, except that a falsy candidate value (`0`, `False`, `""`, `None`) is
skipped like an absent key rather than interpreted. -/
theorem c7_amended_falsy_skipped (note : JDict) :
    extract_date_from_note note = extract_date_spec_amended note :=
  extract_date_go_eq_findSome note date_keys

/-- C6 (counterexample): a record carrying both `user_name` "Alice" and
`user_nickname` "Bob".  The claim says the normalized author is the
`user_nickname` value ("Bob"); `note_parser.extract_notes` tries `user_name`
first and yields "Alice". -/
theorem c6_counterexample :
    (NoteParser.extract_notes (.obj authorBothNote)).map
      NoteParser.XhsNote.author = [some "Alice"] ∧ "Alice" ≠ "Bob" :=
  ⟨rfl, by decide⟩

/-- C6 (amended): the two variants resolve the author differently, and neither
follows the claimed order: `note_parser.extract_notes` tries
`user_name, user_nickname, author, nickname` (first non-blank string wins, no
nested `user` lookup), so a record with both keys yields the `user_name` value,
while the inline chain of `process_notes`
(`user_nickname or user_name or author`) yields the `user_nickname` value. -/
theorem c6_amended_author_key_order (d : JDict) (a b : String)
    (ha : dget d "user_name" = some (.str a)) (ha' : pyStrip a ≠ "")
    (hb : dget d "user_nickname" = some (.str b)) (hb' : pyStrip b ≠ "") :
    NoteParser.first_str d NoteParser.author_keys = some a ∧
    pyOr (dgetD d "user_nickname") (pyOr (dgetD d "user_name") (dgetD d "author"))
      = .str b := by
  constructor
  · simp [NoteParser.first_str, NoteParser.author_keys, List.findSome?_cons, ha, ha']
  · have hbne : b ≠ "" := by
      intro hb0
      apply hb'
      rw [hb0]
      rfl
    simp [dgetD, hb, pyOr, pyTruthy, hbne]

/-- Witness for `c6_amended_author_key_order` at the concrete record. -/
theorem c6_amended_author_key_order_witness :
    NoteParser.first_str authorBothNote NoteParser.author_keys = some "Alice" ∧
    pyOr (dgetD authorBothNote "user_nickname")
      (pyOr (dgetD authorBothNote "user_name") (dgetD authorBothNote "author"))
      = .str "Bob" :=
  c6_amended_author_key_order authorBothNote "Alice" "Bob" rfl (by decide) rfl
    (by decide)

/-- C2 (amended): deduplication happens only on the detail path: a converted
detail record is merged into the first existing raw note with an equal
`note_id` (notes from the feeds path and the generic payload walk are appended
without dedup, see the counterexample), and the merge is Python's
`dict.update`: for every key, the detail record's binding — empty or not —
wins over the existing one. -/
theorem c2_amended_merge_is_dict_update (pre post : List JDict)
    (old note : JDict) (k : String)
    (hpre : ∀ d ∈ pre, jvBeq (dgetD d "note_id") (dgetD note "note_id") = false)
    (hold : jvBeq (dgetD old "note_id") (dgetD note "note_id") = true)
    (hnodup : note.keys.Nodup) :
    LlmAgent.merge_detail_note (pre ++ old :: post) note
      = pre ++ dupdate old note :: post ∧
    dget (dupdate old note) k = optOr (dget note k) (dget old k) := by
  refine ⟨?_, dget_dupdate note old k hnodup⟩
  induction pre with
  | nil => simp [LlmAgent.merge_detail_note, hold]
  | cons d ds ih =>
      have hd := hpre d (by simp)
      simp [LlmAgent.merge_detail_note, hd,
        ih (fun d' hd' => hpre d' (by simp [hd']))]

/-- Witness for `c2_amended_merge_is_dict_update`: the detail's `None` title
wins over the summary's populated title. -/
theorem c2_amended_merge_is_dict_update_witness :
    LlmAgent.merge_detail_note [oldSummaryNote] detailNullTitleNote
      = [dupdate oldSummaryNote detailNullTitleNote] ∧
    dget (dupdate oldSummaryNote detailNullTitleNote) "title"
      = optOr (dget detailNullTitleNote "title") (dget oldSummaryNote "title") :=
  c2_amended_merge_is_dict_update [] [] oldSummaryNote detailNullTitleNote "title"
    (by simp) rfl (by decide)

/-- C3 (amended): under the latest-date policy, when the first pass collects at
least one date (which it does only for notes with a parseable metadata date,
taking both their text-mined and metadata dates), the maximum collected date is
the returned target, and a note is kept by the second pass iff its id is truthy
and its effective date (text-mined preferred over metadata) falls on the target
day. -/
theorem c3_amended_latest_pass (raw_notes : List JDict) (df : Int) (mr : Nat)
    (now target : PyDateTime)
    (hmax : maxDate (latest_all_dates raw_notes) = some target) :
    (process_notes raw_notes df mr false true now).2 = some target ∧
    ∀ n : JDict, (process_one true target n).isSome = true ↔
      (pyTruthy (loopNoteId n) = true ∧
       (optOr (selection_date_from_text n) (extract_date_from_note n)).map
           PyDateTime.truncateDay
         = some (PyDateTime.truncateDay target)) := by
  constructor
  · simp [process_notes, cutoffTargetOf, hmax]
  · intro n
    by_cases hid : pyTruthy (loopNoteId n) = true
    · cases heff : optOr (selection_date_from_text n) (extract_date_from_note n) with
      | none => simp [process_one, hid, heff]
      | some e =>
          by_cases hkeep : PyDateTime.truncateDay e = PyDateTime.truncateDay target
          · simp [process_one, hid, heff, hkeep]
          · simp [process_one, hid, heff, hkeep]
    · simp [process_one, hid]

/-- Witness for `c3_amended_latest_pass` on a one-note batch with metadata date
2025-10-30 and text date 2025-10-31: the target is 2025-10-31 and the note is
kept. -/
theorem c3_amended_latest_pass_witness :
    (process_notes [latestBatchNote] 2 1 false true ⟨2025, 1, 1, 0, 0, 0⟩).2
      = some ⟨2025, 10, 31, 0, 0, 0⟩ ∧
    ((process_one true ⟨2025, 10, 31, 0, 0, 0⟩ latestBatchNote).isSome = true ↔
      (pyTruthy (loopNoteId latestBatchNote) = true ∧
       (optOr (selection_date_from_text latestBatchNote)
           (extract_date_from_note latestBatchNote)).map PyDateTime.truncateDay
         = some (PyDateTime.truncateDay ⟨2025, 10, 31, 0, 0, 0⟩))) :=
  ⟨(c3_amended_latest_pass [latestBatchNote] 2 1 ⟨2025, 1, 1, 0, 0, 0⟩
      ⟨2025, 10, 31, 0, 0, 0⟩ rfl).1,
   (c3_amended_latest_pass [latestBatchNote] 2 1 ⟨2025, 1, 1, 0, 0, 0⟩
      ⟨2025, 10, 31, 0, 0, 0⟩ rfl).2 latestBatchNote⟩

/-- C4 (amended): whenever at least one note survives id and date filtering
(and `max_results ≥ 1`), `process_notes` returns a non-empty list: the top
`max_results` of the high-quality notes of the sorted list when any exist,
else the top `max_results` of the full sorted list. -/
theorem c4_amended_fallback_nonempty (raw_notes : List JDict) (df : Int)
    (mr : Nat) (ft fl : Bool) (now : PyDateTime)
    (hmr : 1 ≤ mr)
    (hne : raw_notes.filterMap
        (process_one (ft || fl) (cutoffTargetOf raw_notes df ft fl now).1) ≠ []) :
    (process_notes raw_notes df mr ft fl now).1 ≠ [] ∧
    (process_notes raw_notes df mr ft fl now).1 =
      (let sorted := sortStable sortLeDesc (raw_notes.filterMap
          (process_one (ft || fl) (cutoffTargetOf raw_notes df ft fl now).1))
       if !(sorted.filter (·.is_high_quality)).isEmpty
       then (sorted.filter (·.is_high_quality)).take mr
       else sorted.take mr) := by
  refine ⟨?_, rfl⟩
  set processed := raw_notes.filterMap
    (process_one (ft || fl) (cutoffTargetOf raw_notes df ft fl now).1) with hp
  have hsortedlen : (sortStable sortLeDesc processed).length = processed.length :=
    sortStable_length _ _
  have hlen : 0 < processed.length := List.length_pos.mpr hne
  show (if !((sortStable sortLeDesc processed).filter (·.is_high_quality)).isEmpty
        then ((sortStable sortLeDesc processed).filter (·.is_high_quality)).take mr
        else (sortStable sortLeDesc processed).take mr) ≠ []
  by_cases hq : ((sortStable sortLeDesc processed).filter (·.is_high_quality)).isEmpty
  · have hsne : 0 < ((sortStable sortLeDesc processed).take mr).length := by
      rw [List.length_take]
      omega
    simp only [hq, Bool.not_true, Bool.false_eq_true, if_false]
    exact List.ne_nil_of_length_pos hsne
  · have hqne : ((sortStable sortLeDesc processed).filter
        (·.is_high_quality)) ≠ [] := fun hnil => hq (by simp [hnil])
    have hqpos : 0 < ((sortStable sortLeDesc processed).filter
        (·.is_high_quality)).length := List.length_pos.mpr hqne
    have hpos : 0 < (((sortStable sortLeDesc processed).filter
        (·.is_high_quality)).take mr).length := by
      rw [List.length_take]
      omega
    rw [Bool.not_eq_true] at hq
    simp only [hq, Bool.not_false, if_true]
    exact List.ne_nil_of_length_pos hpos

/-- Witness for `c4_amended_fallback_nonempty`: a dateless id-carrying note
under the rolling policy survives, so the result is non-empty. -/
theorem c4_amended_fallback_nonempty_witness :
    (process_notes [simpleIdNote] 2 1 false false ⟨1970, 1, 1, 0, 0, 0⟩).1 ≠ [] :=
  (c4_amended_fallback_nonempty [simpleIdNote] 2 1 false false ⟨1970, 1, 1, 0, 0, 0⟩
    (by decide)
    (by
      intro h
      have h1 : ([simpleIdNote].filterMap
          (process_one (false || false)
            (cutoffTargetOf [simpleIdNote] 2 false false ⟨1970, 1, 1, 0, 0, 0⟩).1)).length
          = 1 := rfl
      rw [h] at h1
      simp at h1)).1

/-- C8: a note on which no effective date can be determined (no text-mined date
and no metadata date) is dropped by the exact policies (`process_one` runs with
`exact = filter_today or filter_latest_date`, i.e. `true` under both the today
and the latest policy) and kept — id permitting — by the rolling-window
policy (`exact = false`). -/
theorem c8_dateless_note_policies (raw_note : JDict) (cutoff : PyDateTime)
    (h1 : selection_date_from_text raw_note = none)
    (h2 : extract_date_from_note raw_note = none) :
    process_one true cutoff raw_note = none ∧
    (pyTruthy (loopNoteId raw_note) = true →
      (process_one false cutoff raw_note).isSome = true) := by
  constructor
  · by_cases hid : pyTruthy (loopNoteId raw_note) = true
    · simp [process_one, hid, h1, h2, optOr]
    · simp [process_one, hid]
  · intro hid
    simp [process_one, hid, h1, h2, optOr]

/-- Witness for `c8_dateless_note_policies` at a dateless note with an id. -/
theorem c8_dateless_note_policies_witness :
    process_one true ⟨1970, 1, 1, 0, 0, 0⟩ simpleIdNote = none ∧
    (process_one false ⟨1970, 1, 1, 0, 0, 0⟩ simpleIdNote).isSome = true :=
  ⟨(c8_dateless_note_policies simpleIdNote ⟨1970, 1, 1, 0, 0, 0⟩ rfl rfl).1,
   (c8_dateless_note_policies simpleIdNote ⟨1970, 1, 1, 0, 0, 0⟩ rfl rfl).2 rfl⟩

/-- Witness for `c7_amended_falsy_skipped` at a concrete note with a falsy
first candidate and a parseable second. -/
theorem c7_amended_falsy_skipped_witness :
    extract_date_from_note (jobj [("time", .num 0), ("timestamp", .str "2024-01-02")])
      = extract_date_spec_amended
          (jobj [("time", .num 0), ("timestamp", .str "2024-01-02")]) :=
  c7_amended_falsy_skipped (jobj [("time", .num 0), ("timestamp", .str "2024-01-02")])

end XhsAlphaPicks
